import Mathlib

/-!
Formal model of the property-management server (Express + Prisma backend).

Shallow embedding conventions:
* each Prisma row type becomes a Lean structure projected to the fields the
  embedded handlers read or write (date columns, contact fields and photo
  lists are never consulted by the verified handlers, so they are omitted);
* the relational store becomes an explicit `Db` value threaded through each
  handler; a handler becomes a function `Db → args → Db × HttpResp`;
* JavaScript numbers are modelled as exact rationals (`ℚ`); `NaN` is not
  modelled — string-to-number conversion returns `Option ℚ`;
* Prisma calls map to list lookups/updates: `findUnique` is `List.find?`,
  `update` maps over the list, `create` conses a fresh row and bumps the
  id counter.
-/

namespace Server

/-- PaymentStatus enum from prisma/schema.prisma. -/
inductive PaymentStatus
  | Pending
  | Paid
  | PartiallyPaid
  | Overdue
  deriving Repr, DecidableEq

/-- PaymentType enum from prisma/schema.prisma. -/
inductive PaymentType
  | Rent
  | Deposit
  | Withdrawal
  deriving Repr, DecidableEq

/-- ApplicationStatus enum from prisma/schema.prisma. -/
inductive ApplicationStatus
  | Pending
  | Denied
  | Approved
  deriving Repr, DecidableEq

/-- HTTP response, reduced to the status code the handlers set. -/
structure HttpResp where
  status : Nat
  deriving Repr, DecidableEq

/-- Tenant row (model Tenant): identity plus the monetary balance; the
contact fields and suspension flag are untouched by the embedded handlers. -/
structure Tenant where
  cognitoId : String
  balance : ℚ
  deriving Repr, DecidableEq

/-- Property row (model Property), projected to the financial fields the
application-approval handler reads. -/
structure Property where
  id : Nat
  pricePerMonth : ℚ
  securityDeposit : ℚ
  deriving Repr, DecidableEq

/-- Lease row (model Lease); start/end dates omitted (never read back by
the embedded handlers). -/
structure Lease where
  id : Nat
  rent : ℚ
  deposit : ℚ
  propertyId : Nat
  tenantCognitoId : String
  deriving Repr, DecidableEq

/-- Application row (model Application), projected to the fields the status
handler reads and writes. -/
structure Application where
  id : Nat
  status : ApplicationStatus
  propertyId : Nat
  tenantCognitoId : String
  leaseId : Option Nat
  deriving Repr, DecidableEq

/-- Payment row (model Payment); due/payment dates omitted. -/
structure Payment where
  id : Nat
  leaseId : Option Nat
  amountDue : ℚ
  amountPaid : ℚ
  paymentStatus : PaymentStatus
  type : PaymentType
  isApproved : Bool
  destinationType : Option String
  destinationDetails : Option String
  tenantCognitoId : Option String
  deriving Repr, DecidableEq

/-- The relational store: one list per table, the implicit m-n join table
TenantProperties as a list of (propertyId, cognitoId) pairs, and the
autoincrement counters for the two tables whose fresh ids the handlers use. -/
structure Db where
  tenants : List Tenant
  properties : List Property
  applications : List Application
  leases : List Lease
  payments : List Payment
  occupancies : List (Nat × String)
  nextLeaseId : Nat
  nextPaymentId : Nat
  deriving Repr, DecidableEq

/-- Prisma update over a list: rewrite every row matching the predicate. -/
def updateWhere {α : Type} (p : α → Bool) (f : α → α) (l : List α) : List α :=
  l.map fun x => if p x then f x else x

/-- prisma.tenant.findUnique({ where: { cognitoId } }). -/
def Db.findTenant (db : Db) (cid : String) : Option Tenant :=
  db.tenants.find? (fun t => t.cognitoId == cid)

/-- prisma.property.findUnique({ where: { id } }). -/
def Db.findProperty (db : Db) (pid : Nat) : Option Property :=
  db.properties.find? (fun p => p.id == pid)

/-- prisma.application.findUnique({ where: { id } }). -/
def Db.findApplication (db : Db) (aid : Nat) : Option Application :=
  db.applications.find? (fun a => a.id == aid)

/-- prisma.lease.findUnique({ where: { id } }). -/
def Db.findLease (db : Db) (lid : Nat) : Option Lease :=
  db.leases.find? (fun l => l.id == lid)

/-- prisma.payment.findUnique({ where: { id } }). -/
def Db.findPayment (db : Db) (pid : Nat) : Option Payment :=
  db.payments.find? (fun q => q.id == pid)

/-- prisma.tenant.update({ where: { cognitoId }, data: { balance } }). -/
def Db.updateTenantBalance (db : Db) (cid : String) (b : ℚ) : Db :=
  { db with
    tenants := updateWhere (fun t => t.cognitoId == cid)
      (fun t => { t with balance := b }) db.tenants }

/-- prisma.payment.update({ where: { id }, data: ... }). -/
def Db.updatePayment (db : Db) (pid : Nat) (f : Payment → Payment) : Db :=
  { db with payments := updateWhere (fun q => q.id == pid) f db.payments }

/-- prisma.application.update({ where: { id }, data: ... }). -/
def Db.updateApplication (db : Db) (aid : Nat) (f : Application → Application) : Db :=
  { db with applications := updateWhere (fun a => a.id == aid) f db.applications }

/-- prisma.lease.create: the fresh row carries the next autoincrement id. -/
def Db.insertLease (db : Db) (l : Lease) : Db :=
  { db with leases := l :: db.leases, nextLeaseId := db.nextLeaseId + 1 }

/-- prisma.payment.create. -/
def Db.insertPayment (db : Db) (q : Payment) : Db :=
  { db with payments := q :: db.payments, nextPaymentId := db.nextPaymentId + 1 }

/-- prisma.property.update({ data: { tenants: { connect ... } } }): insert
into the TenantProperties join table (idempotent, set semantics). -/
def Db.connectTenant (db : Db) (propertyId : Nat) (cid : String) : Db :=
  { db with
    occupancies :=
      if (propertyId, cid) ∈ db.occupancies then db.occupancies
      else (propertyId, cid) :: db.occupancies }

/-- Finding a row after a key-preserving bulk update rewrites the found row. -/
theorem find?_updateWhere {α : Type} (p : α → Bool) (f : α → α)
    (hf : ∀ x, p (f x) = p x) (l : List α) :
    (updateWhere p f l).find? p = (l.find? p).map f := by
  induction l with
  | nil => rfl
  | cons x xs ih =>
    simp only [updateWhere, List.map_cons]
    by_cases h : p x = true
    · rw [if_pos h, List.find?_cons_of_pos _ (by rw [hf]; exact h),
        List.find?_cons_of_pos _ h]
      rfl
    · rw [if_neg h, List.find?_cons_of_neg _ h, List.find?_cons_of_neg _ h]
      simp only [updateWhere] at ih ⊢
      exact ih

theorem findTenant_updateTenantBalance (db : Db) (cid : String) (b : ℚ) :
    (db.updateTenantBalance cid b).findTenant cid
      = (db.findTenant cid).map (fun t => { t with balance := b }) := by
  simp only [Db.updateTenantBalance, Db.findTenant]
  exact find?_updateWhere (fun t => t.cognitoId == cid)
    (fun t => { t with balance := b }) (fun _ => rfl) db.tenants

theorem findPayment_updatePayment (db : Db) (pid : Nat) (f : Payment → Payment)
    (hf : ∀ q, (f q).id = q.id) :
    (db.updatePayment pid f).findPayment pid = (db.findPayment pid).map f := by
  simp only [Db.updatePayment, Db.findPayment]
  exact find?_updateWhere _ _ (fun q => by simp [hf q]) _

theorem findApplication_updateApplication (db : Db) (aid : Nat)
    (f : Application → Application) (hf : ∀ a, (f a).id = a.id) :
    (db.updateApplication aid f).findApplication aid
      = (db.findApplication aid).map f := by
  simp only [Db.updateApplication, Db.findApplication]
  exact find?_updateWhere _ _ (fun a => by simp [hf a]) _

theorem mem_connectTenant (db : Db) (pid : Nat) (cid : String) :
    (pid, cid) ∈ (db.connectTenant pid cid).occupancies := by
  unfold Db.connectTenant
  dsimp only
  by_cases h : (pid, cid) ∈ db.occupancies
  · simp [h]
  · simp [h]

/-- Finding a tenant yields a row carrying the looked-up key. -/
theorem findTenant_key (db : Db) (cid : String) (t : Tenant)
    (h : db.findTenant cid = some t) : t.cognitoId = cid := by
  have h2 := List.find?_some h
  simpa using h2

/-!
Application controller (src/src/controllers/applicationControllers.ts).
-/

/-- PUT /applications/:id/status (updateApplicationStatus), success path.
Mirrors the handler: look up the application (with its property and tenant
included — a missing property row would make the include throw, answered by
the catch-all 500); on "Approved", debit the tenant's wallet when the balance
covers the monthly price, create the lease and the initial Paid rent payment,
attach the tenant to the property and update the application's status and
leaseId; on any other status update only the status field. The five Approved
writes are issued as separate awaited calls with no surrounding transaction
(see approvalWrites below for the mid-failure semantics). -/
def updateApplicationStatus (db : Db) (appId : Nat) (status : ApplicationStatus) :
    Db × HttpResp :=
  match db.findApplication appId with
  | none => (db, ⟨404⟩)
  | some app =>
    match db.findProperty app.propertyId with
    | none => (db, ⟨500⟩)
    | some prop =>
      if status = .Approved then
        let db1 :=
          match db.findTenant app.tenantCognitoId with
          | some tenant =>
            if tenant.balance ≥ prop.pricePerMonth then
              db.updateTenantBalance tenant.cognitoId
                (tenant.balance - prop.pricePerMonth)
            else db
          | none => db
        let leaseId := db1.nextLeaseId
        let newLease : Lease :=
          { id := leaseId, rent := prop.pricePerMonth,
            deposit := prop.securityDeposit, propertyId := app.propertyId,
            tenantCognitoId := app.tenantCognitoId }
        let db2 := db1.insertLease newLease
        let newPayment : Payment :=
          { id := db2.nextPaymentId, leaseId := some leaseId,
            amountDue := prop.pricePerMonth, amountPaid := prop.pricePerMonth,
            paymentStatus := .Paid, type := .Rent, isApproved := true,
            destinationType := none, destinationDetails := none,
            tenantCognitoId := none }
        let db3 := db2.insertPayment newPayment
        let db4 := db3.connectTenant app.propertyId app.tenantCognitoId
        let db5 := db4.updateApplication appId
          (fun a => { a with status := status, leaseId := some leaseId })
        (db5, ⟨200⟩)
      else
        (db.updateApplication appId (fun a => { a with status := status }), ⟨200⟩)

/-- One awaited mutation of the Approved branch of updateApplicationStatus. -/
inductive ApprovalWrite
  | debitTenant (cid : String) (newBalance : ℚ)
  | createLease (l : Lease)
  | createPayment (q : Payment)
  | connectTenant (propertyId : Nat) (cid : String)
  | setApplication (appId : Nat) (st : ApplicationStatus) (leaseId : Option Nat)
  deriving Repr, DecidableEq

/-- Interpretation of a single awaited mutation against the store. -/
def applyApprovalWrite (db : Db) : ApprovalWrite → Db
  | .debitTenant cid b => db.updateTenantBalance cid b
  | .createLease l => db.insertLease l
  | .createPayment q => db.insertPayment q
  | .connectTenant pid cid => db.connectTenant pid cid
  | .setApplication appId st lid =>
    db.updateApplication appId (fun a => { a with status := st, leaseId := lid })

/-- The ordered list of awaited mutations the Approved branch of
updateApplicationStatus issues (conditional wallet debit, lease create,
initial payment create, tenant-property connect, application update), all
computed from the pre-state exactly as the handler does. The handler wraps
them in no transaction: an exception after the first k calls persists exactly
those k writes (the catch block answers 500 and performs no compensation). -/
def approvalWrites (db : Db) (appId : Nat) : List ApprovalWrite :=
  match db.findApplication appId with
  | none => []
  | some app =>
    match db.findProperty app.propertyId with
    | none => []
    | some prop =>
      let debit :=
        match db.findTenant app.tenantCognitoId with
        | some tenant =>
          if tenant.balance ≥ prop.pricePerMonth then
            [ApprovalWrite.debitTenant tenant.cognitoId
              (tenant.balance - prop.pricePerMonth)]
          else []
        | none => []
      debit ++
        [ApprovalWrite.createLease
            { id := db.nextLeaseId, rent := prop.pricePerMonth,
              deposit := prop.securityDeposit, propertyId := app.propertyId,
              tenantCognitoId := app.tenantCognitoId },
          ApprovalWrite.createPayment
            { id := db.nextPaymentId, leaseId := some db.nextLeaseId,
              amountDue := prop.pricePerMonth, amountPaid := prop.pricePerMonth,
              paymentStatus := .Paid, type := .Rent, isApproved := true,
              destinationType := none, destinationDetails := none,
              tenantCognitoId := none },
          ApprovalWrite.connectTenant app.propertyId app.tenantCognitoId,
          ApprovalWrite.setApplication appId .Approved (some db.nextLeaseId)]

/-- Store state after the first k awaited mutations of an Approved
transition succeed and the (k+1)-th throws: the k completed writes stay. -/
def runApprovalWrites (db : Db) (appId k : Nat) : Db :=
  ((approvalWrites db appId).take k).foldl applyApprovalWrite db

/-- Running every awaited mutation reproduces the success path of the
handler, tying the mid-failure model to the main embedding. -/
theorem runApprovalWrites_all (db : Db) (appId : Nat) :
    runApprovalWrites db appId (approvalWrites db appId).length
      = (updateApplicationStatus db appId .Approved).1 := by
  unfold runApprovalWrites approvalWrites updateApplicationStatus
  cases happ : db.findApplication appId with
  | none => simp [happ]
  | some app =>
    cases hprop : db.findProperty app.propertyId with
    | none => simp [happ, hprop]
    | some prop =>
      cases ht : db.findTenant app.tenantCognitoId with
      | none =>
        simp [happ, hprop, ht, applyApprovalWrite, Db.updateTenantBalance,
          Db.insertLease, Db.insertPayment, Db.connectTenant, Db.updateApplication]
      | some tenant =>
        by_cases hb : tenant.balance ≥ prop.pricePerMonth
        all_goals
          simp [happ, hprop, ht, hb, applyApprovalWrite, Db.updateTenantBalance,
            Db.insertLease, Db.insertPayment, Db.connectTenant, Db.updateApplication]

/-!
Payment controller (src/src/controllers/paymentControllers.ts).
-/

/-- Value arriving in a loosely-typed JSON request body: a number or a
string. -/
inductive JsVal
  | num (q : ℚ)
  | str (s : String)
  deriving Repr, DecidableEq

/-- Split of a character list on a separator, modelling
String.prototype.split with a single-character separator (an empty input
gives one empty chunk, adjacent separators give empty chunks). -/
def splitChars (sep : Char) : List Char → List (List Char)
  | [] => [[]]
  | c :: cs =>
    if c = sep then [] :: splitChars sep cs
    else
      match splitChars sep cs with
      | [] => [[c]]
      | g :: gs => (c :: g) :: gs

/-- Decimal digit value of a character. -/
def digit? (c : Char) : Option Nat :=
  if '0' ≤ c ∧ c ≤ '9' then some (c.toNat - '0'.toNat) else none

def digitsValAux : List Char → Nat → Option Nat
  | [], acc => some acc
  | c :: cs, acc =>
    match digit? c with
    | some d => digitsValAux cs (acc * 10 + d)
    | none => none

/-- Value of a non-empty all-digit character list. -/
def digitsVal : List Char → Option Nat
  | [] => none
  | c :: cs => digitsValAux (c :: cs) 0

/-- Plain decimal literal parsing, modelling JavaScript's string-to-number
conversion (ToNumber / parseFloat) on the simple numeric literals the
handlers receive; a non-numeric string yields none (NaN, which the model
does not represent as a value). -/
def parseDecimal (s : String) : Option ℚ :=
  let core : List Char → Option ℚ := fun body =>
    match splitChars '.' body with
    | [i] => (digitsVal i).map (fun n => (n : ℚ))
    | [i, f] =>
      match digitsVal i, digitsVal f with
      | some n, some m => some ((n : ℚ) + (m : ℚ) / (10 : ℚ) ^ f.length)
      | _, _ => none
    | _ => none
  match s.data with
  | '-' :: rest => (core rest).map (fun q => -q)
  | cs => core cs

/-- ToNumber coercion of a body value. -/
def jsToNum : JsVal → Option ℚ
  | .num q => some q
  | .str s => parseDecimal s

/-- Lexicographic (code-unit) order on character lists, as JavaScript
compares two strings. -/
def charListLt : List Char → List Char → Bool
  | [], [] => false
  | [], _ :: _ => true
  | _ :: _, [] => false
  | a :: as, b :: bs =>
    if a < b then true else if b < a then false else charListLt as bs

/-- JavaScript string comparison a < b. -/
def strLtJs (a b : String) : Bool := charListLt a.data b.data

/-- JavaScript relational comparison a >= b: if both operands are strings
the comparison is lexicographic, otherwise both are coerced to numbers (a
NaN operand makes the comparison false). -/
def jsGe : JsVal → JsVal → Bool
  | .str a, .str b => !(strLtJs a b)
  | a, b =>
    match jsToNum a, jsToNum b with
    | some x, some y => decide (x ≥ y)
    | _, _ => false

/-- JavaScript relational comparison a > b (same coercion rules as jsGe). -/
def jsGt : JsVal → JsVal → Bool
  | .str a, .str b => strLtJs b a
  | a, b =>
    match jsToNum a, jsToNum b with
    | some x, some y => decide (x > y)
    | _, _ => false

/-- JavaScript truthiness of an optional string: undefined and the empty
string are falsy. -/
def jsTruthyStr : Option String → Bool
  | none => false
  | some s => !(s == "")

/-- Status derivation in createPayment, verbatim from the handler:
paymentStatus starts Pending, becomes Paid when amountPaid >= amountDue and
PartiallyPaid when amountPaid > 0 — with JavaScript comparison semantics on
the raw body values. -/
def derivePaymentStatus (amountPaid amountDue : JsVal) : PaymentStatus :=
  if jsGe amountPaid amountDue then .Paid
  else if jsGt amountPaid (.num 0) then .PartiallyPaid
  else .Pending

/-- Modelled from the spec: the documented numeric status rule — Paid if
paid >= due, PartiallyPaid if 0 < paid < due, otherwise Pending — stated on
numbers, for comparison with the handler's derivation. -/
def specPaymentStatus (amountPaid amountDue : ℚ) : PaymentStatus :=
  if amountPaid ≥ amountDue then .Paid
  else if 0 < amountPaid then .PartiallyPaid
  else .Pending

/-- POST /payments (createPayment): validate the lease, derive the status
from the raw body amounts, store the parseFloat-converted amounts (the
unparseable-string case — NaN in JavaScript — is collapsed to 0 here; no
theorem depends on it). The row takes the schema defaults type Rent,
isApproved false, and no tenantCognitoId. -/
def createPayment (db : Db) (leaseId : Nat) (amountDue amountPaid : JsVal) :
    Db × HttpResp :=
  match db.findLease leaseId with
  | none => (db, ⟨400⟩)
  | some lease =>
    let newPayment : Payment :=
      { id := db.nextPaymentId, leaseId := some lease.id,
        amountDue := (jsToNum amountDue).getD 0,
        amountPaid := (jsToNum amountPaid).getD 0,
        paymentStatus := derivePaymentStatus amountPaid amountDue,
        type := .Rent, isApproved := false, destinationType := none,
        destinationDetails := none, tenantCognitoId := none }
    (db.insertPayment newPayment, ⟨201⟩)

/-- PUT /payments/deposits/:id/approve (approveDeposit): reject a missing
payment (404), a null leaseId (400) or a missing lease (404); then, in one
transaction, mark the payment approved and Paid with amountPaid set to its
amountDue, and credit that amountDue to the lease's tenant when the tenant
row exists. -/
def approveDeposit (db : Db) (pid : Nat) : Db × HttpResp :=
  match db.findPayment pid with
  | none => (db, ⟨404⟩)
  | some p =>
    match p.leaseId with
    | none => (db, ⟨400⟩)
    | some lid =>
      match db.findLease lid with
      | none => (db, ⟨404⟩)
      | some lease =>
        let db1 := db.updatePayment pid
          (fun q =>
            { q with
              isApproved := true, paymentStatus := .Paid,
              amountPaid := p.amountDue })
        let db2 :=
          match db1.findTenant lease.tenantCognitoId with
          | some tenant =>
            db1.updateTenantBalance tenant.cognitoId (tenant.balance + p.amountDue)
          | none => db1
        (db2, ⟨200⟩)

/-- PUT /payments/deposits/:id/decline (declineDeposit): set the payment's
status back to Pending; an unknown id makes prisma.update throw, answered
with 500 and no change. -/
def declineDeposit (db : Db) (pid : Nat) : Db × HttpResp :=
  match db.findPayment pid with
  | none => (db, ⟨500⟩)
  | some _ =>
    (db.updatePayment pid (fun q => { q with paymentStatus := .Pending }), ⟨200⟩)

/-- POST /payments/withdraw (withdrawFunds): 401 without an authenticated
user; 400 when amount <= 0 or either destination field is falsy; 400 when
the tenant is missing or the balance does not cover the amount; otherwise,
in one transaction, debit the balance and record a Paid Withdrawal payment
of the amount with the destination metadata. -/
def withdrawFunds (db : Db) (userId : Option String) (amount : ℚ)
    (destinationType destinationDetails : Option String) : Db × HttpResp :=
  match userId with
  | none => (db, ⟨401⟩)
  | some cid =>
    if amount ≤ 0 then (db, ⟨400⟩)
    else if !(jsTruthyStr destinationType) then (db, ⟨400⟩)
    else if !(jsTruthyStr destinationDetails) then (db, ⟨400⟩)
    else
      match db.findTenant cid with
      | none => (db, ⟨400⟩)
      | some tenant =>
        if tenant.balance < amount then (db, ⟨400⟩)
        else
          let db1 := db.updateTenantBalance cid (tenant.balance - amount)
          let db2 := db1.insertPayment
            { id := db1.nextPaymentId, leaseId := none, amountDue := 0,
              amountPaid := amount, paymentStatus := .Paid, type := .Withdrawal,
              isApproved := true, destinationType := destinationType,
              destinationDetails := destinationDetails,
              tenantCognitoId := some cid }
          (db2, ⟨200⟩)

/-- POST /payments/tenants/:cognitoId/fund (fundTenant): 400 for a
non-positive amount; inside a transaction, a missing tenant throws (rolled
back, answered 500); otherwise credit the balance and record a Paid,
approved Deposit payment of the amount — with leaseId null and no
tenantCognitoId on the row. -/
def fundTenant (db : Db) (cognitoId : String) (amount : ℚ) : Db × HttpResp :=
  if amount ≤ 0 then (db, ⟨400⟩)
  else
    match db.findTenant cognitoId with
    | none => (db, ⟨500⟩)
    | some tenant =>
      let db1 := db.updateTenantBalance cognitoId (tenant.balance + amount)
      let db2 := db1.insertPayment
        { id := db1.nextPaymentId, leaseId := none, amountDue := 0,
          amountPaid := amount, paymentStatus := .Paid, type := .Deposit,
          isApproved := true, destinationType := none,
          destinationDetails := none, tenantCognitoId := none }
      (db2, ⟨200⟩)

/-- GET /payments/tenant/:tenantCognitoId (getPaymentsByTenant): all
payments whose tenantCognitoId column equals the given id (the handler also
joins lease/property context and orders by paymentDate, which the model —
having no dates — does not represent; membership is unaffected). -/
def getPaymentsByTenant (db : Db) (tenantCognitoId : String) : List Payment :=
  db.payments.filter (fun p => p.tenantCognitoId == some tenantCognitoId)

/-!
Property controller, geographic filtering (getProperties in
src/src/controllers/propertyControllers.ts — the current revision; the
superseded revision kept in src/unnamed/part_004 pushed a planar
degree-based condition instead).
-/

/-- Longitude/latitude pair of a Location row's geography(Point) column. -/
structure GeoPoint where
  lng : ℚ
  lat : ℚ
  deriving Repr, DecidableEq

/-- Spatial WHERE fragment getProperties can emit: ST_DWithin over
geography casts (geodesic distance, metres) as in the current revision, or
ST_DWithin over raw geometry (planar degrees) as in the superseded one. -/
inductive SpatialCond
  | dwithinGeography (lng lat : ℚ) (meters : ℚ)
  | dwithinGeometry (lng lat : ℚ) (deg : ℚ)
  deriving Repr, DecidableEq

/-- Spatial-condition builder of getProperties: when both query params are
truthy and parse as numbers, push ST_DWithin on the geography casts with
the configured radius of km = 1000 converted to metres
(Math.round(km * 1000) = 1000000); otherwise push nothing. -/
def spatialCondition (latitude longitude : Option String) : Option SpatialCond :=
  if jsTruthyStr latitude && jsTruthyStr longitude then
    match latitude, longitude with
    | some la, some lo =>
      match parseDecimal la, parseDecimal lo with
      | some lat, some lng => some (.dwithinGeography lng lat 1000000)
      | _, _ => none
    | _, _ => none
  else none

/-- Property joined with its Location row, as the raw query's FROM/JOIN
produces. -/
structure PropertyRow where
  property : Property
  location : GeoPoint
  deriving Repr, DecidableEq

/-- Truth of a spatial condition at a row, parameterised by the two PostGIS
distance interpretations (geography distance in metres — geodesic on the
spheroid — and planar geometry distance in degrees), which are library
semantics external to this repository. -/
def evalSpatialCond (geodesicM planarDeg : GeoPoint → GeoPoint → ℚ)
    (c : SpatialCond) (p : GeoPoint) : Bool :=
  match c with
  | .dwithinGeography lng lat m => decide (geodesicM p ⟨lng, lat⟩ ≤ m)
  | .dwithinGeometry lng lat d => decide (planarDeg p ⟨lng, lat⟩ ≤ d)

/-- GET /properties (getProperties) specialized to a request supplying only
the latitude/longitude query params (every other filter branch then pushes
no WHERE condition): the SELECT over the Property-Location join returns
exactly the rows satisfying the spatial condition, or all rows when none
was pushed. -/
def getPropertiesGeo (rows : List PropertyRow) (latitude longitude : Option String)
    (geodesicM planarDeg : GeoPoint → GeoPoint → ℚ) : List PropertyRow :=
  match spatialCondition latitude longitude with
  | none => rows
  | some c => rows.filter (fun r => evalSpatialCond geodesicM planarDeg c r.location)

/-!
Authorization middleware (src/dist/src/middleware/authMiddleware.js).
-/

/-- Decoded JWT payload as the middleware reads it: the sub claim and the
custom:role claim, each possibly absent. -/
structure JwtPayload where
  sub : Option String
  customRole : Option String
  deriving Repr, DecidableEq

/-- Identity attached to the request for downstream handlers. -/
structure AuthUser where
  id : String
  role : String
  deriving Repr, DecidableEq

/-- Outcome of the middleware: an early response, or control passed to the
route handler with the resolved user attached. -/
inductive AuthOutcome
  | respond (status : Nat)
  | proceed (user : AuthUser)
  deriving Repr, DecidableEq

/-- Lowercasing of an ASCII character, modelling toLowerCase. -/
def lowerChar (c : Char) : Char :=
  if 'A' ≤ c ∧ c ≤ 'Z' then Char.ofNat (c.toNat + 32) else c

/-- Lowercasing of a string, modelling String.prototype.toLowerCase. -/
def lowerStr (s : String) : String := ⟨s.data.map lowerChar⟩

/-- Second space-separated chunk of the Authorization header
(authHeader.split(" ")[1]): undefined when there is no second chunk. -/
def tokenPart (h : String) : Option String :=
  ((splitChars ' ' h.data).map (fun cs => (⟨cs⟩ : String)))[1]?

/-- Role-based auth middleware (authMiddleware): 401 without a truthy
Authorization header or bearer chunk; 400 when the token does not decode to
a payload with a truthy sub (jwt.decode is modelled by the decode
argument — the shipped code decodes without verifying signatures); 403 when
the lowercased custom:role claim is not in the route's lowercased
allow-list; otherwise attach the identity and role and run the handler. -/
def authMiddleware (allowedRoles : List String) (decode : String → Option JwtPayload)
    (authorization : Option String) : AuthOutcome :=
  let roles := allowedRoles.map lowerStr
  match authorization with
  | none => .respond 401
  | some h =>
    if h = "" then .respond 401
    else
      match tokenPart h with
      | none => .respond 401
      | some token =>
        if token = "" then .respond 401
        else
          match decode token with
          | none => .respond 400
          | some payload =>
            match payload.sub with
            | none => .respond 400
            | some sub =>
              if sub = "" then .respond 400
              else
                let userRole := lowerStr (payload.customRole.getD "")
                if userRole ∈ roles then .proceed ⟨sub, userRole⟩
                else .respond 403

/-!
Claim C3 — withdrawFunds.
-/

/-- Concrete store for the withdrawFunds claims: one tenant with balance
100 and an empty ledger. -/
def dbW : Db :=
  { tenants := [{ cognitoId := "t1", balance := 100 }], properties := [],
    applications := [], leases := [], payments := [], occupancies := [],
    nextLeaseId := 1, nextPaymentId := 1 }

/-- C3, counterexample: with amount A = 0 the tenant's balance (100) is at
least A, yet the handler answers 400 and records no Withdrawal payment —
the store is unchanged — contradicting the claim's requirement that every
call with balance at least A debit the balance by A and record one
Withdrawal payment of amountPaid = A. -/
theorem withdrawFunds_zero_amount_cex :
    (0 : ℚ) ≤ 100
      ∧ (withdrawFunds dbW (some "t1") 0 (some "BankTransfer") (some "acct-1")).1 = dbW
      ∧ (withdrawFunds dbW (some "t1") 0 (some "BankTransfer") (some "acct-1")).2.status = 400 :=
  ⟨by decide, rfl, rfl⟩

/-- C3 (amended: restricted to valid withdrawal requests, i.e. a positive
amount and truthy destination fields, as the handler's validation guard
requires): when the tenant's balance covers the amount, the balance is
debited by exactly the amount and exactly one Paid Withdrawal payment with
amountPaid equal to the amount is recorded; when the balance is short, the
handler answers 400 and the store is unchanged. -/
theorem withdrawFunds_spec_amended (db : Db) (cid : String) (t : Tenant) (A : ℚ)
    (dt dd : String) (ht : db.findTenant cid = some t) (hA : 0 < A)
    (hdt : dt ≠ "") (hdd : dd ≠ "") :
    (A ≤ t.balance →
        (withdrawFunds db (some cid) A (some dt) (some dd)).1.findTenant cid
            = some { t with balance := t.balance - A }
          ∧ (withdrawFunds db (some cid) A (some dt) (some dd)).1.payments
            = { id := db.nextPaymentId, leaseId := none, amountDue := 0,
                amountPaid := A, paymentStatus := .Paid, type := .Withdrawal,
                isApproved := true, destinationType := some dt,
                destinationDetails := some dd,
                tenantCognitoId := some cid } :: db.payments
          ∧ (withdrawFunds db (some cid) A (some dt) (some dd)).2.status = 200)
      ∧ (t.balance < A →
          (withdrawFunds db (some cid) A (some dt) (some dd)).1 = db
            ∧ (withdrawFunds db (some cid) A (some dt) (some dd)).2.status = 400) := by
  have hA0 : ¬ A ≤ 0 := not_le.mpr hA
  constructor
  · intro hle
    have hnlt : ¬ t.balance < A := not_lt.mpr hle
    have hfind := findTenant_updateTenantBalance db cid (t.balance - A)
    rw [ht] at hfind
    refine ⟨?_, ?_, ?_⟩
    · simp [withdrawFunds, jsTruthyStr, hA0, hdt, hdd, hnlt, ht, Db.insertPayment]
      simp [Db.updateTenantBalance, Db.findTenant] at hfind
      simpa using hfind
    · simp [withdrawFunds, jsTruthyStr, hA0, hdt, hdd, hnlt, ht, Db.insertPayment,
        Db.updateTenantBalance]
    · simp [withdrawFunds, jsTruthyStr, hA0, hdt, hdd, hnlt, ht]
  · intro hlt
    constructor
    · simp [withdrawFunds, jsTruthyStr, hA0, hdt, hdd, ht, hlt]
    · simp [withdrawFunds, jsTruthyStr, hA0, hdt, hdd, ht, hlt]

/-- C3, witness: at the concrete store dbW, withdrawing 50 from a balance
of 100 debits to 50 and records the Withdrawal payment. -/
theorem withdrawFunds_spec_amended_witness :
    dbW.findTenant "t1" = some { cognitoId := "t1", balance := 100 }
      ∧ (0 : ℚ) < 50 ∧ (50 : ℚ) ≤ 100
      ∧ (withdrawFunds dbW (some "t1") 50 (some "BankTransfer") (some "acct-1")).1.findTenant "t1"
          = some { cognitoId := "t1", balance := (100 : ℚ) - 50 }
      ∧ (withdrawFunds dbW (some "t1") 50 (some "BankTransfer") (some "acct-1")).1.payments
          = [{ id := 1, leaseId := none, amountDue := 0, amountPaid := 50,
               paymentStatus := .Paid, type := .Withdrawal, isApproved := true,
               destinationType := some "BankTransfer",
               destinationDetails := some "acct-1",
               tenantCognitoId := some "t1" }]
      ∧ (withdrawFunds dbW (some "t1") 50 (some "BankTransfer") (some "acct-1")).2.status = 200 := by
  have h := (withdrawFunds_spec_amended dbW "t1" { cognitoId := "t1", balance := 100 }
    50 "BankTransfer" "acct-1" (by decide) (by decide) (by decide) (by decide)).1 (by decide)
  exact ⟨by decide, by decide, by decide, h.1, h.2.1, h.2.2⟩

/-!
Claims C4 and C9 — approveDeposit / declineDeposit.
-/

theorem findPayment_updateTenantBalance (db : Db) (cid : String) (b : ℚ) (pid : Nat) :
    (db.updateTenantBalance cid b).findPayment pid = db.findPayment pid := rfl

theorem findTenant_updatePayment (db : Db) (pid : Nat) (f : Payment → Payment)
    (cid : String) :
    (db.updatePayment pid f).findTenant cid = db.findTenant cid := rfl

theorem findLease_updatePayment (db : Db) (pid : Nat) (f : Payment → Payment)
    (lid : Nat) :
    (db.updatePayment pid f).findLease lid = db.findLease lid := rfl

theorem findLease_updateTenantBalance (db : Db) (cid : String) (b : ℚ) (lid : Nat) :
    (db.updateTenantBalance cid b).findLease lid = db.findLease lid := rfl

theorem leases_updatePayment (db : Db) (pid : Nat) (f : Payment → Payment) :
    (db.updatePayment pid f).leases = db.leases := rfl

theorem leases_updateTenantBalance (db : Db) (cid : String) (b : ℚ) :
    (db.updateTenantBalance cid b).leases = db.leases := rfl

/-- Effect of approveDeposit on a deposit with a valid lease and existing
tenant: the payment is marked approved/Paid with amountPaid set to its
amountDue, the tenant is credited that amountDue, leases are untouched and
the response is 200. -/
theorem approveDeposit_effect (db : Db) (pid : Nat) (p : Payment) (lid : Nat)
    (lease : Lease) (t : Tenant)
    (hp : db.findPayment pid = some p) (hlid : p.leaseId = some lid)
    (hl : db.findLease lid = some lease)
    (ht : db.findTenant lease.tenantCognitoId = some t) :
    (approveDeposit db pid).1.findPayment pid
        = some { p with
            isApproved := true, paymentStatus := .Paid,
            amountPaid := p.amountDue }
      ∧ (approveDeposit db pid).1.findTenant lease.tenantCognitoId
        = some { t with balance := t.balance + p.amountDue }
      ∧ (approveDeposit db pid).1.findLease lid = some lease
      ∧ (approveDeposit db pid).1.leases = db.leases
      ∧ (approveDeposit db pid).2.status = 200 := by
  have hkey : t.cognitoId = lease.tenantCognitoId := findTenant_key _ _ _ ht
  have hpay := findPayment_updatePayment db pid
    (fun q =>
      { q with
        isApproved := true, paymentStatus := .Paid, amountPaid := p.amountDue })
    (fun _ => rfl)
  rw [hp] at hpay
  unfold approveDeposit
  simp only [hp, hlid, hl]
  rw [findTenant_updatePayment, ht]
  dsimp only
  refine ⟨?_, ?_, ?_, ?_, ?_⟩
  · rw [findPayment_updateTenantBalance, hpay]
    simp [hlid]
  · rw [hkey, findTenant_updateTenantBalance, findTenant_updatePayment, ht]
    simp [hkey]
  · rw [findLease_updateTenantBalance, findLease_updatePayment, hl]
  · rw [leases_updateTenantBalance, leases_updatePayment]
  · trivial

/-- C4: approving a deposit credits the owning tenant's balance by exactly
the payment's amountDue and marks the payment Paid, approved, with
amountPaid equal to amountDue; declining leaves every tenant row unchanged
and sets the payment's status back to Pending. -/
theorem deposit_approve_decline_spec (db : Db) (pid : Nat) (p : Payment)
    (lid : Nat) (lease : Lease) (t : Tenant)
    (hp : db.findPayment pid = some p) (hlid : p.leaseId = some lid)
    (hl : db.findLease lid = some lease)
    (ht : db.findTenant lease.tenantCognitoId = some t) :
    ((approveDeposit db pid).1.findTenant lease.tenantCognitoId
        = some { t with balance := t.balance + p.amountDue }
      ∧ (approveDeposit db pid).1.findPayment pid
        = some { p with
            isApproved := true, paymentStatus := .Paid,
            amountPaid := p.amountDue })
    ∧ ((declineDeposit db pid).1.tenants = db.tenants
      ∧ (declineDeposit db pid).1.findPayment pid
        = some { p with paymentStatus := .Pending }) := by
  obtain ⟨h1, h2, _, _, _⟩ := approveDeposit_effect db pid p lid lease t hp hlid hl ht
  have hpay := findPayment_updatePayment db pid
    (fun q => { q with paymentStatus := .Pending }) (fun _ => rfl)
  rw [hp] at hpay
  refine ⟨⟨h2, h1⟩, ?_, ?_⟩
  · simp [declineDeposit, hp, Db.updatePayment]
  · simp only [declineDeposit, hp]
    exact hpay

/-- Concrete store for the deposit claims: a pending 200-unit deposit
request on lease 2 of tenant t1. -/
def dbD : Db :=
  { tenants := [{ cognitoId := "t1", balance := 100 }], properties := [],
    applications := [],
    leases := [{ id := 2, rent := 400, deposit := 800, propertyId := 7,
                 tenantCognitoId := "t1" }],
    payments := [{ id := 5, leaseId := some 2, amountDue := 200,
                   amountPaid := 0, paymentStatus := .Pending, type := .Deposit,
                   isApproved := false, destinationType := none,
                   destinationDetails := none, tenantCognitoId := some "t1" }],
    occupancies := [], nextLeaseId := 3, nextPaymentId := 6 }

def payD : Payment :=
  { id := 5, leaseId := some 2, amountDue := 200, amountPaid := 0,
    paymentStatus := .Pending, type := .Deposit, isApproved := false,
    destinationType := none, destinationDetails := none,
    tenantCognitoId := some "t1" }

def leaseD : Lease :=
  { id := 2, rent := 400, deposit := 800, propertyId := 7,
    tenantCognitoId := "t1" }

def tenD : Tenant := { cognitoId := "t1", balance := 100 }

/-- C4, witness: approving and declining the concrete 200-unit deposit of
dbD. -/
theorem deposit_approve_decline_spec_witness :
    dbD.findPayment 5 = some payD
      ∧ payD.leaseId = some 2
      ∧ dbD.findLease 2 = some leaseD
      ∧ dbD.findTenant leaseD.tenantCognitoId = some tenD
      ∧ (((approveDeposit dbD 5).1.findTenant leaseD.tenantCognitoId
            = some { tenD with balance := tenD.balance + payD.amountDue }
          ∧ (approveDeposit dbD 5).1.findPayment 5
            = some { payD with
                isApproved := true, paymentStatus := .Paid,
                amountPaid := payD.amountDue })
        ∧ ((declineDeposit dbD 5).1.tenants = dbD.tenants
          ∧ (declineDeposit dbD 5).1.findPayment 5
            = some { payD with paymentStatus := .Pending })) :=
  ⟨by decide, by decide, by decide, by decide,
    deposit_approve_decline_spec dbD 5 payD 2 leaseD tenD
      (by decide) (by decide) (by decide) (by decide)⟩

/-- C9: approveDeposit checks no idempotency precondition — a second
approval of the same deposit succeeds again (200) and credits the owning
tenant a second time, leaving the balance up by twice the payment's
amountDue; the hypotheses place no constraint on the payment's isApproved
flag or status, so this covers a payment already marked approved and Paid. -/
theorem approveDeposit_double_credit (db : Db) (pid : Nat) (p : Payment)
    (lid : Nat) (lease : Lease) (t : Tenant)
    (hp : db.findPayment pid = some p) (hlid : p.leaseId = some lid)
    (hl : db.findLease lid = some lease)
    (ht : db.findTenant lease.tenantCognitoId = some t) :
    (approveDeposit (approveDeposit db pid).1 pid).1.findTenant lease.tenantCognitoId
        = some { t with balance := t.balance + 2 * p.amountDue }
      ∧ (approveDeposit (approveDeposit db pid).1 pid).2.status = 200 := by
  obtain ⟨h1p, h1t, h1l, _, _⟩ := approveDeposit_effect db pid p lid lease t hp hlid hl ht
  obtain ⟨_, h2t, _, _, h2resp⟩ := approveDeposit_effect (approveDeposit db pid).1 pid
    { p with isApproved := true, paymentStatus := .Paid, amountPaid := p.amountDue }
    lid lease { t with balance := t.balance + p.amountDue } h1p hlid h1l h1t
  refine ⟨?_, h2resp⟩
  rw [h2t]
  have harith : t.balance + p.amountDue + p.amountDue = t.balance + 2 * p.amountDue := by
    ring
  simp [harith]

/-- C9, witness: approving the already-approvable concrete deposit of dbD
twice leaves tenant t1 at balance 100 + 2 * 200. -/
theorem approveDeposit_double_credit_witness :
    dbD.findPayment 5 = some payD
      ∧ payD.leaseId = some 2
      ∧ dbD.findLease 2 = some leaseD
      ∧ dbD.findTenant leaseD.tenantCognitoId = some tenD
      ∧ (approveDeposit (approveDeposit dbD 5).1 5).1.findTenant leaseD.tenantCognitoId
          = some { tenD with balance := tenD.balance + 2 * payD.amountDue }
      ∧ (approveDeposit (approveDeposit dbD 5).1 5).2.status = 200 := by
  have h := approveDeposit_double_credit dbD 5 payD 2 leaseD tenD
    (by decide) (by decide) (by decide) (by decide)
  exact ⟨by decide, by decide, by decide, by decide, h.1, h.2⟩

/-!
Claims C2 and C7 — updateApplicationStatus.
-/

theorem findTenant_insertLease (db : Db) (l : Lease) (cid : String) :
    (db.insertLease l).findTenant cid = db.findTenant cid := rfl

theorem findTenant_insertPayment (db : Db) (q : Payment) (cid : String) :
    (db.insertPayment q).findTenant cid = db.findTenant cid := rfl

theorem findTenant_connectTenant (db : Db) (pid : Nat) (c cid : String) :
    (db.connectTenant pid c).findTenant cid = db.findTenant cid := rfl

theorem findTenant_updateApplication (db : Db) (aid : Nat)
    (f : Application → Application) (cid : String) :
    (db.updateApplication aid f).findTenant cid = db.findTenant cid := rfl

theorem findApplication_updateTenantBalance (db : Db) (cid : String) (b : ℚ)
    (aid : Nat) :
    (db.updateTenantBalance cid b).findApplication aid = db.findApplication aid := rfl

theorem findApplication_insertLease (db : Db) (l : Lease) (aid : Nat) :
    (db.insertLease l).findApplication aid = db.findApplication aid := rfl

theorem findApplication_insertPayment (db : Db) (q : Payment) (aid : Nat) :
    (db.insertPayment q).findApplication aid = db.findApplication aid := rfl

theorem findApplication_connectTenant (db : Db) (pid : Nat) (c : String) (aid : Nat) :
    (db.connectTenant pid c).findApplication aid = db.findApplication aid := rfl

/-- C2: approving an application for a 400-per-month property whose tenant
holds balance 500 leaves the balance at 100, creates exactly one new lease
with rent 400, creates exactly one new Paid payment with amountDue and
amountPaid 400, sets the application to Approved with its leaseId pointing
at the new lease, and associates the tenant with the property. -/
theorem approve_concrete_scenario (db : Db) (appId : Nat) (app : Application)
    (prop : Property) (t : Tenant)
    (happ : db.findApplication appId = some app)
    (hprop : db.findProperty app.propertyId = some prop)
    (hprice : prop.pricePerMonth = 400)
    (ht : db.findTenant app.tenantCognitoId = some t)
    (hbal : t.balance = 500) :
    (updateApplicationStatus db appId .Approved).1.findTenant app.tenantCognitoId
        = some { t with balance := 100 }
      ∧ (updateApplicationStatus db appId .Approved).1.leases
        = { id := db.nextLeaseId, rent := 400, deposit := prop.securityDeposit,
            propertyId := app.propertyId,
            tenantCognitoId := app.tenantCognitoId } :: db.leases
      ∧ (updateApplicationStatus db appId .Approved).1.payments
        = { id := db.nextPaymentId, leaseId := some db.nextLeaseId,
            amountDue := 400, amountPaid := 400, paymentStatus := .Paid,
            type := .Rent, isApproved := true, destinationType := none,
            destinationDetails := none, tenantCognitoId := none } :: db.payments
      ∧ (updateApplicationStatus db appId .Approved).1.findApplication appId
        = some { app with status := .Approved, leaseId := some db.nextLeaseId }
      ∧ (app.propertyId, app.tenantCognitoId)
          ∈ (updateApplicationStatus db appId .Approved).1.occupancies := by
  have hkey : t.cognitoId = app.tenantCognitoId := findTenant_key _ _ _ ht
  have hge : t.balance ≥ prop.pricePerMonth := by
    rw [hbal, hprice]; norm_num
  have hbal100 : t.balance - prop.pricePerMonth = 100 := by
    rw [hbal, hprice]; norm_num
  have ht' := ht
  have happ' := happ
  simp only [Db.findTenant] at ht'
  simp only [Db.findApplication] at happ'
  unfold updateApplicationStatus
  simp only [Db.updateTenantBalance, Db.insertLease, Db.insertPayment,
    Db.connectTenant, Db.updateApplication, Db.findTenant, Db.findApplication]
  simp only [happ', hprop, ht', hge, if_true]
  refine ⟨?_, ?_, ?_, ?_, ?_⟩
  · simp only [hkey]
    rw [find?_updateWhere (fun u => u.cognitoId == app.tenantCognitoId)
      (fun u => { u with balance := t.balance - prop.pricePerMonth })
      (fun _ => rfl) db.tenants, ht']
    simp [hbal100, hkey]
  · simp [hprice]
  · simp [hprice]
  · rw [find?_updateWhere (fun a => a.id == appId)
      (fun a => { a with status := .Approved, leaseId := some db.nextLeaseId })
      (fun _ => rfl) db.applications, happ']
    rfl
  · by_cases hmem : (app.propertyId, app.tenantCognitoId) ∈ db.occupancies
    · simp [hmem]
    · simp [hmem]

/-- Concrete store for the application claims: tenant t1 with balance 500,
property 7 at 400 per month, application 3 pending. -/
def dbA : Db :=
  { tenants := [{ cognitoId := "t1", balance := 500 }],
    properties := [{ id := 7, pricePerMonth := 400, securityDeposit := 800 }],
    applications := [{ id := 3, status := .Pending, propertyId := 7,
                       tenantCognitoId := "t1", leaseId := none }],
    leases := [], payments := [], occupancies := [],
    nextLeaseId := 1, nextPaymentId := 1 }

def appA : Application :=
  { id := 3, status := .Pending, propertyId := 7, tenantCognitoId := "t1",
    leaseId := none }

def propA : Property := { id := 7, pricePerMonth := 400, securityDeposit := 800 }

def tenA : Tenant := { cognitoId := "t1", balance := 500 }

/-- C2, witness: approving application 3 of the concrete store dbA. -/
theorem approve_concrete_scenario_witness :
    dbA.findApplication 3 = some appA
      ∧ dbA.findProperty appA.propertyId = some propA
      ∧ propA.pricePerMonth = 400
      ∧ dbA.findTenant appA.tenantCognitoId = some tenA
      ∧ tenA.balance = 500
      ∧ ((updateApplicationStatus dbA 3 .Approved).1.findTenant appA.tenantCognitoId
          = some { tenA with balance := 100 }
        ∧ (updateApplicationStatus dbA 3 .Approved).1.leases
          = [{ id := 1, rent := 400, deposit := 800, propertyId := 7,
               tenantCognitoId := "t1" }]
        ∧ (updateApplicationStatus dbA 3 .Approved).1.payments
          = [{ id := 1, leaseId := some 1, amountDue := 400, amountPaid := 400,
               paymentStatus := .Paid, type := .Rent, isApproved := true,
               destinationType := none, destinationDetails := none,
               tenantCognitoId := none }]
        ∧ (updateApplicationStatus dbA 3 .Approved).1.findApplication 3
          = some { appA with status := .Approved, leaseId := some 1 }
        ∧ (appA.propertyId, appA.tenantCognitoId)
            ∈ (updateApplicationStatus dbA 3 .Approved).1.occupancies) :=
  ⟨by decide, by decide, by decide, by decide, by decide,
    approve_concrete_scenario dbA 3 appA propA tenA
      (by decide) (by decide) (by decide) (by decide) (by decide)⟩

/-- C7: a status transition other than Approved (Denied or Pending) on an
existing application changes only the application's status field — tenants,
leases, payments and the tenant-property association table are untouched,
and every other application row is unchanged. -/
theorem updateApplicationStatus_nonApproved_frame (db : Db) (appId : Nat)
    (app : Application) (prop : Property) (st : ApplicationStatus)
    (happ : db.findApplication appId = some app)
    (hprop : db.findProperty app.propertyId = some prop)
    (hst : st ≠ .Approved) :
    (updateApplicationStatus db appId st).1.tenants = db.tenants
      ∧ (updateApplicationStatus db appId st).1.leases = db.leases
      ∧ (updateApplicationStatus db appId st).1.payments = db.payments
      ∧ (updateApplicationStatus db appId st).1.occupancies = db.occupancies
      ∧ (updateApplicationStatus db appId st).1.applications
        = updateWhere (fun a => a.id == appId)
            (fun a => { a with status := st }) db.applications
      ∧ (updateApplicationStatus db appId st).1.findApplication appId
        = some { app with status := st }
      ∧ (updateApplicationStatus db appId st).2.status = 200 := by
  have happf := findApplication_updateApplication db appId
    (fun a => { a with status := st }) (fun _ => rfl)
  rw [happ] at happf
  have hres : updateApplicationStatus db appId st
      = (db.updateApplication appId (fun a => { a with status := st }), ⟨200⟩) := by
    unfold updateApplicationStatus
    simp only [happ, hprop, hst, if_false]
  refine ⟨by rw [hres]; rfl, by rw [hres]; rfl, by rw [hres]; rfl,
    by rw [hres]; rfl, by rw [hres]; rfl, ?_, by rw [hres]⟩
  rw [hres]
  exact happf

/-- C7, witness: denying application 3 of the concrete store dbA. -/
theorem updateApplicationStatus_nonApproved_frame_witness :
    dbA.findApplication 3 = some appA
      ∧ dbA.findProperty appA.propertyId = some propA
      ∧ (ApplicationStatus.Denied ≠ ApplicationStatus.Approved)
      ∧ ((updateApplicationStatus dbA 3 .Denied).1.tenants = dbA.tenants
        ∧ (updateApplicationStatus dbA 3 .Denied).1.leases = dbA.leases
        ∧ (updateApplicationStatus dbA 3 .Denied).1.payments = dbA.payments
        ∧ (updateApplicationStatus dbA 3 .Denied).1.occupancies = dbA.occupancies
        ∧ (updateApplicationStatus dbA 3 .Denied).1.applications
          = updateWhere (fun a => a.id == 3)
              (fun a => { a with status := .Denied }) dbA.applications
        ∧ (updateApplicationStatus dbA 3 .Denied).1.findApplication 3
          = some { appA with status := .Denied }
        ∧ (updateApplicationStatus dbA 3 .Denied).2.status = 200) :=
  ⟨by decide, by decide, by decide,
    updateApplicationStatus_nonApproved_frame dbA 3 appA propA .Denied
      (by decide) (by decide) (by decide)⟩

/-!
Claim C1 — atomicity of the Approved branch of updateApplicationStatus.
-/

/-- Concrete store for the atomicity claim: tenant t1 with balance 500,
property 7 at 400 per month, application 3 pending. -/
def db0 : Db :=
  { tenants := [{ cognitoId := "t1", balance := 500 }],
    properties := [{ id := 7, pricePerMonth := 400, securityDeposit := 800 }],
    applications := [{ id := 3, status := .Pending, propertyId := 7,
                       tenantCognitoId := "t1", leaseId := none }],
    leases := [], payments := [], occupancies := [],
    nextLeaseId := 1, nextPaymentId := 1 }

/-- C1 (code bug): the Approved branch issues its five writes as separate
awaited calls with no transaction. If the initial-payment create throws
after the wallet debit and the lease create succeeded (two of the five
awaited writes complete, as runApprovalWrites db0 3 2 models), the
persisted state holds the new lease while the application is still Pending
with no leaseId and no payment recorded — a proper, non-empty subset of the
claimed all-or-nothing write set. The last conjunct checks that running all
five writes reproduces the handler's success path, tying the failure model
to the main embedding. -/
theorem approval_midFailure_subset_state :
    (runApprovalWrites db0 3 2).leases.length = db0.leases.length + 1
      ∧ ((runApprovalWrites db0 3 2).findApplication 3).map Application.status
        = some .Pending
      ∧ ((runApprovalWrites db0 3 2).findApplication 3).map Application.leaseId
        = some none
      ∧ (runApprovalWrites db0 3 2).payments = db0.payments
      ∧ (approvalWrites db0 3).length = 5
      ∧ runApprovalWrites db0 3 5 = (updateApplicationStatus db0 3 .Approved).1 := by
  have hlen : (approvalWrites db0 3).length = 5 := by decide
  have h := runApprovalWrites_all db0 3
  rw [hlen] at h
  exact ⟨by decide, by decide, by decide, by decide, hlen, h⟩

/-!
Claim C5 — createPayment status derivation.
-/

def leaseP : Lease :=
  { id := 1, rent := 400, deposit := 800, propertyId := 7,
    tenantCognitoId := "t1" }

/-- Concrete store for the createPayment claims: one lease, empty ledger. -/
def dbP : Db :=
  { tenants := [], properties := [], applications := [], leases := [leaseP],
    payments := [], occupancies := [], nextLeaseId := 2, nextPaymentId := 1 }

/-- C5, counterexample: amounts arriving as the strings amountPaid = "9"
and amountDue = "10" compare lexicographically in JavaScript ("9" >= "10"
holds because the code unit of 9 exceeds that of 1), so the created payment
is marked Paid although the claim's numeric rule (0 < 9 < 10) demands
PartiallyPaid; the stored parsed amounts really are 9 and 10. -/
theorem createPayment_string_amounts_cex :
    ((createPayment dbP 1 (.str "10") (.str "9")).1.payments.head?).map
        Payment.paymentStatus = some .Paid
      ∧ specPaymentStatus 9 10 = .PartiallyPaid
      ∧ jsToNum (.str "9") = some 9
      ∧ jsToNum (.str "10") = some 10 :=
  ⟨by decide, by decide, by decide, by decide⟩

/-- C5 (amended: restricted to amounts arriving as numbers — when both
amounts arrive as strings the handler compares them lexicographically and
can disagree with the numeric rule, as the counterexample shows): with a
valid leaseId, the created payment's status is exactly the documented pure
function of amountPaid and amountDue, and exactly one payment is added. -/
theorem createPayment_status_numeric (db : Db) (lid : Nat) (lease : Lease)
    (due paid : ℚ) (hl : db.findLease lid = some lease) :
    (createPayment db lid (.num due) (.num paid)).1.payments
      = { id := db.nextPaymentId, leaseId := some lease.id,
          amountDue := due, amountPaid := paid,
          paymentStatus := specPaymentStatus paid due, type := .Rent,
          isApproved := false, destinationType := none,
          destinationDetails := none,
          tenantCognitoId := none } :: db.payments := by
  have hstat : derivePaymentStatus (.num paid) (.num due) = specPaymentStatus paid due := by
    simp only [derivePaymentStatus, specPaymentStatus, jsGe, jsGt, jsToNum,
      decide_eq_true_eq]
  simp only [createPayment, hl, Db.insertPayment, hstat, jsToNum, Option.getD_some]

/-- C5, witness: a numeric body with amountPaid 40 and amountDue 100 on the
concrete store dbP yields a PartiallyPaid payment. -/
theorem createPayment_status_numeric_witness :
    dbP.findLease 1 = some leaseP
      ∧ (createPayment dbP 1 (.num 100) (.num 40)).1.payments
        = { id := 1, leaseId := some 1, amountDue := 100, amountPaid := 40,
            paymentStatus := specPaymentStatus 40 100, type := .Rent,
            isApproved := false, destinationType := none,
            destinationDetails := none, tenantCognitoId := none } :: dbP.payments
      ∧ specPaymentStatus 40 100 = .PartiallyPaid :=
  ⟨by decide, createPayment_status_numeric dbP 1 leaseP 100 40 (by decide),
    by decide⟩

/-!
Claim C6 — geographic radius filtering in getProperties.
-/

/-- C6: a listing query supplying numeric latitude and longitude makes
getProperties push the geography-cast ST_DWithin condition with the
configured 1000 km radius converted to metres, and return exactly the rows
whose Location lies within that distance of the query point under the
geography (geodesic) distance interpretation — for every interpretation of
the two PostGIS distances, so the result never depends on the planar
degree-based distance the superseded revision used. -/
theorem getProperties_geo_radius (rows : List PropertyRow) (la lo : String)
    (lat lng : ℚ) (geodesicM planarDeg : GeoPoint → GeoPoint → ℚ)
    (hla : parseDecimal la = some lat) (hlo : parseDecimal lo = some lng) :
    spatialCondition (some la) (some lo)
        = some (.dwithinGeography lng lat 1000000)
      ∧ getPropertiesGeo rows (some la) (some lo) geodesicM planarDeg
        = rows.filter
            (fun r => decide (geodesicM r.location ⟨lng, lat⟩ ≤ 1000000)) := by
  have hemp : parseDecimal "" = none := by decide
  have hlane : la ≠ "" := by
    intro he
    rw [he, hemp] at hla
    exact Option.noConfusion hla
  have hlone : lo ≠ "" := by
    intro he
    rw [he, hemp] at hlo
    exact Option.noConfusion hlo
  have hcond : spatialCondition (some la) (some lo)
      = some (.dwithinGeography lng lat 1000000) := by
    simp [spatialCondition, jsTruthyStr, hlane, hlone, hla, hlo]
  refine ⟨hcond, ?_⟩
  simp [getPropertiesGeo, hcond, evalSpatialCond]

/-- Distance interpretations and rows for the C6 witness: a geodesic
distance that vanishes at equal latitude and is 2000 km otherwise, and two
rows of which only the first is within the radius. -/
def geodW : GeoPoint → GeoPoint → ℚ := fun p q =>
  if p.lat == q.lat then 0 else 2000000

def planW : GeoPoint → GeoPoint → ℚ := fun _ _ => 0

def rowsW : List PropertyRow :=
  [{ property := { id := 1, pricePerMonth := 100, securityDeposit := 0 },
     location := { lng := 20, lat := 10 } },
   { property := { id := 2, pricePerMonth := 200, securityDeposit := 0 },
     location := { lng := 20, lat := 50 } }]

/-- C6, witness: the query point (lat "10", lng "20") against rowsW keeps
exactly the row at latitude 10. -/
theorem getProperties_geo_radius_witness :
    parseDecimal "10" = some 10
      ∧ parseDecimal "20" = some 20
      ∧ (spatialCondition (some "10") (some "20")
          = some (.dwithinGeography 20 10 1000000)
        ∧ getPropertiesGeo rowsW (some "10") (some "20") geodW planW
          = rowsW.filter
              (fun r => decide (geodW r.location ⟨20, 10⟩ ≤ 1000000)))
      ∧ rowsW.filter (fun r => decide (geodW r.location ⟨20, 10⟩ ≤ 1000000))
        = [{ property := { id := 1, pricePerMonth := 100, securityDeposit := 0 },
             location := { lng := 20, lat := 10 } }] :=
  ⟨by decide, by decide,
    getProperties_geo_radius rowsW "10" "20" 10 20 geodW planW
      (by decide) (by decide),
    by decide⟩

/-!
Claim C8 — authMiddleware.
-/

/-- C8, counterexample: the header "Bearer" is present but carries no token
chunk. The claim's first branch (absent header) does not apply and no token
decodes to any role, so its remaining branch asserts the handler runs with
an attached identity; the middleware instead answers 401 and never invokes
the handler. -/
theorem authMiddleware_bearerOnly_cex :
    (some "Bearer" ≠ (none : Option String))
      ∧ authMiddleware ["manager"] (fun _ => none) (some "Bearer")
        = .respond 401 :=
  ⟨by decide, by decide⟩

/-- C8 (amended: the malformed cases the claim's otherwise-branch glossed
over are rejections — a present but tokenless header is 401 and an
undecodable or sub-less token is 400): absent or empty Authorization gives
401 and the handler never runs; a header without a non-empty second chunk
gives 401; a token that does not decode, or decodes without a truthy sub,
gives 400; a decoded role claim outside the lowercased allow-list gives
403; otherwise the middleware attaches the sub and lowercased role and
passes control to the handler. -/
theorem authMiddleware_contract (roles : List String)
    (decode : String → Option JwtPayload) :
    (∀ auth : Option String, auth = none ∨ auth = some "" →
        authMiddleware roles decode auth = .respond 401)
      ∧ (∀ h : String, h ≠ "" → tokenPart h = none ∨ tokenPart h = some "" →
          authMiddleware roles decode (some h) = .respond 401)
      ∧ (∀ h token, h ≠ "" → tokenPart h = some token → token ≠ "" →
          decode token = none →
          authMiddleware roles decode (some h) = .respond 400)
      ∧ (∀ h token payload, h ≠ "" → tokenPart h = some token → token ≠ "" →
          decode token = some payload →
          payload.sub = none ∨ payload.sub = some "" →
          authMiddleware roles decode (some h) = .respond 400)
      ∧ (∀ h token payload sub, h ≠ "" → tokenPart h = some token →
          token ≠ "" → decode token = some payload → payload.sub = some sub →
          sub ≠ "" →
          lowerStr (payload.customRole.getD "") ∉ roles.map lowerStr →
          authMiddleware roles decode (some h) = .respond 403)
      ∧ (∀ h token payload sub, h ≠ "" → tokenPart h = some token →
          token ≠ "" → decode token = some payload → payload.sub = some sub →
          sub ≠ "" →
          lowerStr (payload.customRole.getD "") ∈ roles.map lowerStr →
          authMiddleware roles decode (some h)
            = .proceed ⟨sub, lowerStr (payload.customRole.getD "")⟩) := by
  refine ⟨?_, ?_, ?_, ?_, ?_, ?_⟩
  · rintro auth (rfl | rfl) <;> simp [authMiddleware]
  · rintro h hne (htok | htok) <;> simp [authMiddleware, hne, htok]
  · intro h token hne htok htne hdec
    simp [authMiddleware, hne, htok, htne, hdec]
  · rintro h token payload hne htok htne hdec (hsub | hsub) <;>
      simp [authMiddleware, hne, htok, htne, hdec, hsub]
  · intro h token payload sub hne htok htne hdec hsub hsne hrole
    simp [authMiddleware, hne, htok, htne, hdec, hsub, hsne, hrole]
  · intro h token payload sub hne htok htne hdec hsub hsne hrole
    simp [authMiddleware, hne, htok, htne, hdec, hsub, hsne, hrole]

/-- Decode map for the C8 witness: the token "tok" carries sub user-1 and
role Manager. -/
def decW : String → Option JwtPayload := fun t =>
  if t = "tok" then some { sub := some "user-1", customRole := some "Manager" }
  else none

/-- C8, witness: a well-formed manager bearer token on a manager route
reaches the handler with the lowercased role and the sub attached. -/
theorem authMiddleware_contract_witness :
    ("Bearer tok" : String) ≠ ""
      ∧ tokenPart "Bearer tok" = some "tok"
      ∧ ("tok" : String) ≠ ""
      ∧ decW "tok" = some { sub := some "user-1", customRole := some "Manager" }
      ∧ lowerStr "Manager" ∈ ["manager", "tenant"].map lowerStr
      ∧ authMiddleware ["manager", "tenant"] decW (some "Bearer tok")
        = .proceed ⟨"user-1", lowerStr "Manager"⟩ := by
  refine ⟨by decide, by decide, by decide, by decide, by decide, ?_⟩
  exact (authMiddleware_contract ["manager", "tenant"] decW).2.2.2.2.2
    "Bearer tok" "tok" { sub := some "user-1", customRole := some "Manager" }
    "user-1" (by decide) (by decide) (by decide) (by decide) (by decide)
    (by decide) (by decide)

/-!
Claim C10 — fundTenant and getPaymentsByTenant.
-/

/-- C10: funding a tenant with a positive amount credits the balance by
exactly that amount, but the recorded Deposit payment carries leaseId null
and no tenantCognitoId, so the tenant's payment history as returned by
getPaymentsByTenant is unchanged — the top-up is invisible there. -/
theorem fundTenant_invisible_payment (db : Db) (cid : String) (t : Tenant)
    (A : ℚ) (ht : db.findTenant cid = some t) (hA : 0 < A) :
    (fundTenant db cid A).1.findTenant cid
        = some { t with balance := t.balance + A }
      ∧ (fundTenant db cid A).1.payments
        = { id := db.nextPaymentId, leaseId := none, amountDue := 0,
            amountPaid := A, paymentStatus := .Paid, type := .Deposit,
            isApproved := true, destinationType := none,
            destinationDetails := none,
            tenantCognitoId := none } :: db.payments
      ∧ getPaymentsByTenant (fundTenant db cid A).1 cid
        = getPaymentsByTenant db cid
      ∧ (fundTenant db cid A).2.status = 200 := by
  have hA0 : ¬ A ≤ 0 := not_le.mpr hA
  have hfind := findTenant_updateTenantBalance db cid (t.balance + A)
  rw [ht] at hfind
  refine ⟨?_, ?_, ?_, ?_⟩
  · simp only [fundTenant, hA0, if_false, ht]
    exact hfind
  · simp [fundTenant, hA0, ht, Db.insertPayment, Db.updateTenantBalance]
  · simp only [fundTenant, hA0, if_false, ht]
    simp [getPaymentsByTenant, Db.insertPayment, Db.updateTenantBalance]
  · simp [fundTenant, hA0, ht]

/-- Concrete store for the fundTenant witness: tenant t1 with an existing
rent payment in their history. -/
def dbF : Db :=
  { tenants := [{ cognitoId := "t1", balance := 100 }], properties := [],
    applications := [], leases := [],
    payments := [{ id := 4, leaseId := some 2, amountDue := 400,
                   amountPaid := 400, paymentStatus := .Paid, type := .Rent,
                   isApproved := true, destinationType := none,
                   destinationDetails := none, tenantCognitoId := some "t1" }],
    occupancies := [], nextLeaseId := 3, nextPaymentId := 5 }

/-- C10, witness: funding t1 with 200 on the concrete store dbF credits the
balance while t1's payment history keeps only the pre-existing rent row. -/
theorem fundTenant_invisible_payment_witness :
    dbF.findTenant "t1" = some { cognitoId := "t1", balance := 100 }
      ∧ (0 : ℚ) < 200
      ∧ ((fundTenant dbF "t1" 200).1.findTenant "t1"
          = some { cognitoId := "t1", balance := (100 : ℚ) + 200 }
        ∧ (fundTenant dbF "t1" 200).1.payments
          = { id := 5, leaseId := none, amountDue := 0, amountPaid := 200,
              paymentStatus := .Paid, type := .Deposit, isApproved := true,
              destinationType := none, destinationDetails := none,
              tenantCognitoId := none } :: dbF.payments
        ∧ getPaymentsByTenant (fundTenant dbF "t1" 200).1 "t1"
          = getPaymentsByTenant dbF "t1"
        ∧ (fundTenant dbF "t1" 200).2.status = 200)
      ∧ getPaymentsByTenant dbF "t1"
        = [{ id := 4, leaseId := some 2, amountDue := 400, amountPaid := 400,
             paymentStatus := .Paid, type := .Rent, isApproved := true,
             destinationType := none, destinationDetails := none,
             tenantCognitoId := some "t1" }] :=
  ⟨by decide, by decide,
    fundTenant_invisible_payment dbF "t1" { cognitoId := "t1", balance := 100 }
      200 (by decide) (by decide),
    by decide⟩

end Server
